import Mathlib

/-!
Verification of the retry/backoff controllers of the AI-Game-Builder
repository.

The development shallowly embeds the three pieces of control logic the
specification describes as the "Resilient Call Controller":

* `GeminiConfig.is_quota_error`, `GeminiConfig.get_adaptive_delay` and
  `GeminiConfig.handle_quota_exceeded` from `config.py`;
* the retry loop of `ResilientChatGoogleGenerativeAI._generate` from
  `agents.py` (modelled by `resilient_generate`);
* the retry loop of `GameBuilderCrew.run` from `crew.py` (modelled by
  `crew_run`).

Error messages are modelled as lists of characters (Python strings),
remote calls as functions from the invocation index to an `Except`
value, and elapsed sleeps as an explicit event trace.  Durations are
rationals (the Python floats involved are small integers, exactly
representable).
-/

/-- Model of the Python substring test used via the `in` operator:
`listStartsWith s p` holds when `p` is a prefix of `s`. -/
def listStartsWith : List Char → List Char → Bool
  | _, [] => true
  | [], _ :: _ => false
  | a :: s, b :: p => a == b && listStartsWith s p

/-- Model of Python `p in s`: `containsSub p s` holds when the pattern
`p` occurs contiguously inside `s`. -/
def containsSub (p : List Char) : List Char → Bool
  | [] => listStartsWith [] p
  | c :: t => listStartsWith (c :: t) p || containsSub p t

/-- Model of Python `str.lower()` (the messages involved are ASCII). -/
def strLower (s : List Char) : List Char := s.map Char.toLower

/-- The `quota_indicators` list of `GeminiConfig.is_quota_error`
(config.py lines 128-137). -/
def quota_indicators : List (List Char) :=
  [("429").toList,
   ("rate limit").toList,
   ("quota exceeded").toList,
   ("resource_exhausted").toList,
   ("resourceexhausted").toList,
   ("too many requests").toList,
   ("rate_limit_exceeded").toList,
   ("quota_exceeded").toList]

/-- Model of `GeminiConfig.is_quota_error` (config.py lines 116-139):
lowercase the message and test each indicator for substring
containment. -/
def is_quota_error (error : List Char) : Bool :=
  let error_str := strLower error
  quota_indicators.any (fun indicator => containsSub indicator error_str)

/-- The rate-limit classification used by
`ResilientChatGoogleGenerativeAI._generate` (agents.py lines 41-46):
`is_quota_error` plus five extra substring checks on the lowercased
message. -/
def agent_is_rate_limit (e : List Char) : Bool :=
  let error_str := strLower e
  is_quota_error e ||
    containsSub (("rate limit").toList) error_str ||
    containsSub (("quota").toList) error_str ||
    containsSub (("too many requests").toList) error_str ||
    containsSub (("429").toList) error_str ||
    containsSub (("resource_exhausted").toList) error_str

/-- The rate-limit classification used by `GameBuilderCrew.run`
(crew.py lines 75-84): the agent-level indicators plus
`'iteration limit'` and `'time limit'`. -/
def crew_is_rate_limit (e : List Char) : Bool :=
  let error_str := strLower e
  is_quota_error e ||
    containsSub (("rate limit").toList) error_str ||
    containsSub (("quota").toList) error_str ||
    containsSub (("too many requests").toList) error_str ||
    containsSub (("429").toList) error_str ||
    containsSub (("resource_exhausted").toList) error_str ||
    containsSub (("iteration limit").toList) error_str ||
    containsSub (("time limit").toList) error_str

/-- `GeminiConfig.QUOTA_WAIT_TIME` (config.py line 33). -/
def QUOTA_WAIT_TIME : ℚ := 65

/-- `GeminiConfig.MAX_QUOTA_RETRIES` (config.py line 34). -/
def MAX_QUOTA_RETRIES : ℕ := 10

/-- `GeminiConfig.EXPONENTIAL_BACKOFF_BASE` (config.py line 35). -/
def EXPONENTIAL_BACKOFF_BASE : ℚ := 2

/-- `GeminiConfig.MAX_BACKOFF_TIME` (config.py line 36). -/
def MAX_BACKOFF_TIME : ℚ := 300

/-- Default of the env-configurable `GeminiConfig.REQUEST_DELAY`
(config.py line 28, default string "3.0"). -/
def REQUEST_DELAY_default : ℚ := 3

/-- The wait-time computation of `GeminiConfig.handle_quota_exceeded`
(config.py lines 81-84), parametrised by the three class constants it
reads: `exponential_factor = min(base_wait_factor ** retry_count,
max_backoff / base_wait)` and `wait_time = min(base_wait *
exponential_factor, max_backoff)`. -/
def quota_backoff_wait (base_wait b max_backoff : ℚ) (retry_count : ℕ) : ℚ :=
  min (base_wait * min (b ^ retry_count) (max_backoff / base_wait)) max_backoff

/-- The wait time of `GeminiConfig.handle_quota_exceeded` at the
concrete class constants of `config.py`. -/
def quota_wait_time (retry_count : ℕ) : ℚ :=
  quota_backoff_wait QUOTA_WAIT_TIME EXPONENTIAL_BACKOFF_BASE MAX_BACKOFF_TIME retry_count

/-- Model of `GeminiConfig.handle_quota_exceeded` (config.py lines
66-92): `none` models `return False` (budget exhausted), `some w`
models waiting `w` seconds and returning `True`. -/
def handle_quota_exceeded (retry_count : ℕ) : Option ℚ :=
  if MAX_QUOTA_RETRIES ≤ retry_count then none
  else some (quota_wait_time retry_count)

/-- Model of `GeminiConfig.get_adaptive_delay` (config.py lines
141-157), parametrised by the env-configurable `REQUEST_DELAY`. -/
def get_adaptive_delay (REQUEST_DELAY : ℚ) (error_count : ℕ) : ℚ :=
  if error_count = 0 then REQUEST_DELAY
  else min (REQUEST_DELAY * EXPONENTIAL_BACKOFF_BASE ^ (min error_count 5)) MAX_BACKOFF_TIME

/-- Observable events of a controller execution: remote-call
invocations (numbered from 0) and `time.sleep` suspensions (seconds). -/
inductive Ev where
  | call : ℕ → Ev
  | sleep : ℚ → Ev
deriving DecidableEq

/-- Number of remote-call invocations recorded in a trace. -/
def callsOf (tr : List Ev) : ℕ :=
  (tr.filter fun e => match e with | .call _ => true | .sleep _ => false).length

/-- The sleep durations recorded in a trace, in order. -/
def waitsOf (tr : List Ev) : List ℚ :=
  tr.filterMap fun e => match e with | .sleep q => some q | .call _ => none

/-- The message of the exception raised by
`ResilientChatGoogleGenerativeAI._generate` when all attempts fail with
a rate-limit classification (agents.py line 58). -/
def exhaustedMessage (max_attempts : ℕ) : List Char :=
  ("Rate limit exceeded after ").toList ++ (Nat.repr max_attempts).toList ++
    (" attempts. Please wait and try again.").toList

/-- Terminal outcome of the `_generate` loop.  `fatalErr` models the
`raise e` of a non-quota error (agents.py line 62); `exhaustedErr`
models the fresh exception of line 58, which by Python implicit
exception chaining carries the in-flight error as context, so it
records both the formatted message and the message of the last
underlying error; `allFailedErr` models line 65 (reachable only when
`max_attempts = 0`). -/
inductive AgentOutcome (α : Type) where
  | ok : α → AgentOutcome α
  | fatalErr : List Char → AgentOutcome α
  | exhaustedErr : List Char → List Char → AgentOutcome α
  | allFailedErr : AgentOutcome α
deriving DecidableEq

/-- Result of a `_generate` execution: the outcome together with the
trace of invocations and sleeps. -/
structure AgentRes (α : Type) where
  result : AgentOutcome α
  trace : List Ev
deriving DecidableEq

/-- The `for attempt in range(max_attempts)` loop of
`ResilientChatGoogleGenerativeAI._generate` (agents.py lines 28-65).
`f` gives the behaviour of the wrapped `super()._generate` call at each
invocation index, `a` is the current value of `attempt` and the fuel
argument is the number of loop iterations left (`max_attempts - a`).
Before every attempt but the first the loop sleeps `REQUEST_DELAY`
(`GeminiConfig.add_request_delay`, line 33); on a rate-limit failure
that is not the last attempt it sleeps `60 + attempt * 30` seconds
(line 52) and retries. -/
def resilient_generate_loop (f : ℕ → Except (List Char) α)
    (max_attempts : ℕ) (REQUEST_DELAY : ℚ) : ℕ → ℕ → AgentRes α
  | _, 0 => ⟨.allFailedErr, []⟩
  | a, fuel + 1 =>
    let pre : List Ev := if 0 < a then [.sleep REQUEST_DELAY] else []
    match f a with
    | .ok v => ⟨.ok v, pre ++ [.call a]⟩
    | .error msg =>
      if agent_is_rate_limit msg then
        if a < max_attempts - 1 then
          let rest := resilient_generate_loop f max_attempts REQUEST_DELAY (a + 1) fuel
          ⟨rest.result, pre ++ [.call a, .sleep (60 + (a : ℚ) * 30)] ++ rest.trace⟩
        else ⟨.exhaustedErr (exhaustedMessage max_attempts) msg, pre ++ [.call a]⟩
      else ⟨.fatalErr msg, pre ++ [.call a]⟩

/-- Model of `ResilientChatGoogleGenerativeAI._generate` (agents.py
lines 24-65): run the loop from `attempt = 0` with `max_attempts`
iterations of fuel. -/
def resilient_generate (f : ℕ → Except (List Char) α)
    (max_attempts : ℕ) (REQUEST_DELAY : ℚ) : AgentRes α :=
  resilient_generate_loop f max_attempts REQUEST_DELAY 0 max_attempts

/-- Terminal outcome of `GameBuilderCrew.run`.  `response s` models
`return self._create_error_response(s)` with the `error_type` argument
`s`; `raised` models `raise e` of a persistent non-rate-limit error
(crew.py line 113); `fuelOut` is the artefact of the bounded recursion,
shown unreachable for the fuel used by `crew_run`. -/
inductive CrewOutcome (α : Type) where
  | ok : α → CrewOutcome α
  | response : List Char → CrewOutcome α
  | raised : List Char → CrewOutcome α
  | fuelOut : CrewOutcome α
deriving DecidableEq

/-- Result of a `GameBuilderCrew.run` execution: the outcome, the final
value of the instance counter `self.consecutive_errors`, and the trace
of invocations and sleeps. -/
structure CrewRes (α : Type) where
  outcome : CrewOutcome α
  finalErrors : ℕ
  trace : List Ev
deriving DecidableEq

/-- The `while quota_retry_count < GeminiConfig.MAX_QUOTA_RETRIES` loop
of `GameBuilderCrew.run` (crew.py lines 26-116).  `g` gives the
behaviour of `crew.kickoff()` at each invocation index `k`; `qrc` is
`quota_retry_count` and `c` is `self.consecutive_errors`.  Each
iteration first sleeps the adaptive delay when it exceeds
`REQUEST_DELAY`, otherwise `REQUEST_DELAY` itself
(`GeminiConfig.add_request_delay`, lines 31-36).  On success the error
counter resets to 0 (line 67).  A rate-limit failure with retry budget
left sleeps `60 + quota_retry_count * 30` seconds and increments both
counters (lines 90-98); with the budget spent it returns the
rate-limit error response (line 101).  A non-rate-limit failure with
`consecutive_errors < 3` increments the counter and sleeps
`10 * 2 ** consecutive_errors` with the incremented counter (lines
105-110), otherwise the error is re-raised (line 113). -/
def crew_run_loop (g : ℕ → Except (List Char) α) (REQUEST_DELAY : ℚ) :
    ℕ → ℕ → ℕ → ℕ → CrewRes α
  | _, _, c, 0 => ⟨.fuelOut, c, []⟩
  | k, qrc, c, fuel + 1 =>
    if qrc < MAX_QUOTA_RETRIES then
      let adaptive_delay := get_adaptive_delay REQUEST_DELAY c
      let pre : ℚ := if REQUEST_DELAY < adaptive_delay then adaptive_delay else REQUEST_DELAY
      match g k with
      | .ok v => ⟨.ok v, 0, [.sleep pre, .call k]⟩
      | .error msg =>
        if crew_is_rate_limit msg then
          if qrc < MAX_QUOTA_RETRIES - 1 then
            let rest := crew_run_loop g REQUEST_DELAY (k + 1) (qrc + 1) (c + 1) fuel
            ⟨rest.outcome, rest.finalErrors,
              [.sleep pre, .call k, .sleep (60 + (qrc : ℚ) * 30)] ++ rest.trace⟩
          else ⟨.response (("rate_limit_exceeded").toList), c, [.sleep pre, .call k]⟩
        else
          if c < 3 then
            let rest := crew_run_loop g REQUEST_DELAY (k + 1) qrc (c + 1) fuel
            ⟨rest.outcome, rest.finalErrors,
              [.sleep pre, .call k, .sleep (10 * 2 ^ (c + 1))] ++ rest.trace⟩
          else ⟨.raised msg, c, [.sleep pre, .call k]⟩
    else ⟨.response (("max_retries_exceeded").toList), c, []⟩

/-- Fuel bound for `crew_run_loop`: every continuing iteration strictly
decreases `(MAX_QUOTA_RETRIES - qrc) + (4 - min c 4)`, which from the
entry state `qrc = 0` is at most 14, so 15 units of fuel always
suffice. -/
def crew_fuel : ℕ := 15

/-- Model of `GameBuilderCrew.run` (crew.py lines 20-116) started on an
instance whose `self.consecutive_errors` equals `c0`. -/
def crew_run (g : ℕ → Except (List Char) α) (REQUEST_DELAY : ℚ) (c0 : ℕ) :
    CrewRes α :=
  crew_run_loop g REQUEST_DELAY 0 0 c0 crew_fuel

/-- A remote call fails transiently at invocation `k` when it returns an
error that the agent-level classifier marks as a rate-limit error. -/
def transient_fail (f : ℕ → Except (List Char) α) (k : ℕ) : Prop :=
  ∃ m, f k = .error m ∧ agent_is_rate_limit m = true

/-- Sample transient error message (contains the indicator `'429'`). -/
def msg429boom : List Char := ("429 boom").toList

/-- Sample fatal (non-rate-limit) error message. -/
def msgInvalidKey : List Char := ("invalid api key").toList

/-- The error message of the concrete scenario of the specification. -/
def msg429rl : List Char := ("429 rate limit").toList

/-- A message containing `'resource exhausted'` with a space, which is
in none of the configured indicator strings. -/
def msgResourceSpace : List Char := ("Error 100: Resource exhausted").toList

/-- A crew-level iteration-limit message. -/
def msgIterLimit : List Char := ("Agent stopped due to iteration limit.").toList

/-- Remote call that fails transiently on every invocation. -/
def fAlways429 : ℕ → Except (List Char) ℕ := fun _ => .error msg429boom

/-- Remote call that fails fatally on every invocation. -/
def fFatal : ℕ → Except (List Char) ℕ := fun _ => .error msgInvalidKey

/-- Remote call that fails transiently twice, then succeeds with 7. -/
def fTwice429 : ℕ → Except (List Char) ℕ :=
  fun k => if k < 2 then .error msg429rl else .ok 7

/-- Remote call that fails transiently once, then succeeds with 1. -/
def gOnce429 : ℕ → Except (List Char) ℕ :=
  fun k => if k = 0 then .error msg429rl else .ok 1

/-- Remote call that fails once with an iteration-limit message, then
succeeds with 0. -/
def gIter : ℕ → Except (List Char) ℕ :=
  fun k => if k = 0 then .error msgIterLimit else .ok 0

/-- Remote call that succeeds immediately with 5. -/
def gOk : ℕ → Except (List Char) ℕ := fun _ => .ok 5

/-!
Theorems.  First the substring theory used to reason about the
classifiers, then trace bookkeeping, then the claims.
-/

theorem listStartsWith_iff (p s : List Char) :
    listStartsWith s p = true ↔ ∃ r, s = p ++ r := by
  induction p generalizing s with
  | nil => simp [listStartsWith]
  | cons b bp ih =>
    cases s with
    | nil => simp [listStartsWith]
    | cons a as =>
      simp only [listStartsWith, Bool.and_eq_true, beq_iff_eq, ih,
        List.cons_append, List.cons.injEq]
      constructor
      · rintro ⟨rfl, r, rfl⟩; exact ⟨r, rfl, rfl⟩
      · rintro ⟨r, rfl, rfl⟩; exact ⟨rfl, r, rfl⟩

theorem containsSub_iff (p s : List Char) :
    containsSub p s = true ↔ ∃ l r, s = l ++ (p ++ r) := by
  induction s with
  | nil =>
    simp only [containsSub, listStartsWith_iff]
    constructor
    · rintro ⟨r, hr⟩; exact ⟨[], r, by simpa using hr⟩
    · rintro ⟨l, r, hr⟩
      rcases List.append_eq_nil.mp hr.symm with ⟨rfl, h2⟩
      exact ⟨r, by simpa using hr⟩
  | cons c t ih =>
    simp only [containsSub, Bool.or_eq_true, listStartsWith_iff, ih]
    constructor
    · rintro (⟨r, hr⟩ | ⟨l, r, hr⟩)
      · exact ⟨[], r, by simpa using hr⟩
      · exact ⟨c :: l, r, by simp [hr]⟩
    · rintro ⟨l, r, hr⟩
      cases l with
      | nil => exact Or.inl ⟨r, by simpa using hr⟩
      | cons x xs =>
        exact Or.inr ⟨xs, r, by
          simp only [List.cons_append, List.cons.injEq] at hr
          exact hr.2⟩

theorem containsSub_trans {q p s : List Char} (hqp : containsSub q p = true)
    (hps : containsSub p s = true) : containsSub q s = true := by
  rw [containsSub_iff] at hqp hps ⊢
  obtain ⟨l1, r1, h1⟩ := hqp
  obtain ⟨l2, r2, h2⟩ := hps
  exact ⟨l2 ++ l1, r1 ++ r2, by subst h1; simp only [h2]; simp [List.append_assoc]⟩

@[simp] theorem callsOf_nil : callsOf [] = 0 := rfl

@[simp] theorem callsOf_cons_sleep (q : ℚ) (tr : List Ev) :
    callsOf (.sleep q :: tr) = callsOf tr := by
  simp [callsOf]

@[simp] theorem callsOf_cons_call (k : ℕ) (tr : List Ev) :
    callsOf (.call k :: tr) = callsOf tr + 1 := by
  simp [callsOf, List.filter]

@[simp] theorem callsOf_append (xs ys : List Ev) :
    callsOf (xs ++ ys) = callsOf xs + callsOf ys := by
  simp [callsOf, List.filter_append]

@[simp] theorem waitsOf_nil : waitsOf [] = [] := rfl

@[simp] theorem waitsOf_cons_sleep (q : ℚ) (tr : List Ev) :
    waitsOf (.sleep q :: tr) = q :: waitsOf tr := by
  simp [waitsOf]

@[simp] theorem waitsOf_cons_call (k : ℕ) (tr : List Ev) :
    waitsOf (.call k :: tr) = waitsOf tr := by
  simp [waitsOf]

@[simp] theorem waitsOf_append (xs ys : List Ev) :
    waitsOf (xs ++ ys) = waitsOf xs ++ waitsOf ys := by
  simp [waitsOf]

/-- C6 counterexample: the lowercased message of `msgResourceSpace`
contains the substring `'resource exhausted'` (with a space), yet both
`GeminiConfig.is_quota_error` and the agent-level classifier return
false for it, because the configured indicators only contain the
underscored and the concatenated spellings.  This refutes the claim
that any message containing `'resource exhausted'` is classified as a
rate-limit error. -/
theorem c6_counterexample :
    containsSub (("resource exhausted").toList) (strLower msgResourceSpace) = true ∧
    is_quota_error msgResourceSpace = false ∧
    agent_is_rate_limit msgResourceSpace = false := by
  refine ⟨by decide, by decide, by decide⟩

/-- C6 (amended): `GeminiConfig.is_quota_error` returns true exactly
when the lowercased message contains one of the eight configured
indicators `'429'`, `'rate limit'`, `'quota exceeded'`,
`'resource_exhausted'`, `'resourceexhausted'`, `'too many requests'`,
`'rate_limit_exceeded'`, `'quota_exceeded'`; the agent-level check of
`_generate` (which additionally tests bare `'quota'` and re-tests the
other extras) is equivalent to containing one of the seven indicators
`'429'`, `'rate limit'`, `'quota'`, `'too many requests'`,
`'resource_exhausted'`, `'resourceexhausted'`,
`'rate_limit_exceeded'`.  In particular neither classifier accepts
`'resource exhausted'` spelled with a space, and bare `'quota'` is
accepted only by the agent-level check. -/
theorem c6_amended_classifier_characterisation (m : List Char) :
    (is_quota_error m = true ↔
      (containsSub (("429").toList) (strLower m) = true ∨
       containsSub (("rate limit").toList) (strLower m) = true ∨
       containsSub (("quota exceeded").toList) (strLower m) = true ∨
       containsSub (("resource_exhausted").toList) (strLower m) = true ∨
       containsSub (("resourceexhausted").toList) (strLower m) = true ∨
       containsSub (("too many requests").toList) (strLower m) = true ∨
       containsSub (("rate_limit_exceeded").toList) (strLower m) = true ∨
       containsSub (("quota_exceeded").toList) (strLower m) = true)) ∧
    (agent_is_rate_limit m = true ↔
      (containsSub (("429").toList) (strLower m) = true ∨
       containsSub (("rate limit").toList) (strLower m) = true ∨
       containsSub (("quota").toList) (strLower m) = true ∨
       containsSub (("too many requests").toList) (strLower m) = true ∨
       containsSub (("resource_exhausted").toList) (strLower m) = true ∨
       containsSub (("resourceexhausted").toList) (strLower m) = true ∨
       containsSub (("rate_limit_exceeded").toList) (strLower m) = true)) := by
  have hq1 : containsSub (("quota exceeded").toList) (strLower m) = true →
      containsSub (("quota").toList) (strLower m) = true :=
    fun h => containsSub_trans (by decide) h
  have hq2 : containsSub (("quota_exceeded").toList) (strLower m) = true →
      containsSub (("quota").toList) (strLower m) = true :=
    fun h => containsSub_trans (by decide) h
  constructor
  · simp only [is_quota_error, quota_indicators, List.any_cons, List.any_nil,
      Bool.or_eq_true, Bool.or_false]
    try tauto
  · simp only [agent_is_rate_limit, is_quota_error, quota_indicators, List.any_cons,
      List.any_nil, Bool.or_eq_true, Bool.or_false]
    try tauto

/-- C10: the crew-level classifier of `GameBuilderCrew.run` accepts any
message whose lowercased text contains `'iteration limit'` or
`'time limit'`, although neither substring appears in the configured
`quota_indicators` of `GeminiConfig.is_quota_error` (and the sample
message is rejected by both `is_quota_error` and the agent-level
check); such an error is then retried on the rate-limit schedule, as
the concrete run shows (retry wait of 60 seconds, two invocations,
success). -/
theorem c10_crew_widens_rate_limit_classification :
    (∀ m : List Char,
      containsSub (("iteration limit").toList) (strLower m) = true →
        crew_is_rate_limit m = true) ∧
    (∀ m : List Char,
      containsSub (("time limit").toList) (strLower m) = true →
        crew_is_rate_limit m = true) ∧
    ("iteration limit").toList ∉ quota_indicators ∧
    ("time limit").toList ∉ quota_indicators ∧
    is_quota_error msgIterLimit = false ∧
    agent_is_rate_limit msgIterLimit = false ∧
    crew_is_rate_limit msgIterLimit = true ∧
    crew_run gIter REQUEST_DELAY_default 0 =
      ⟨.ok 0, 0, [.sleep 3, .call 0, .sleep 60, .sleep 6, .call 1]⟩ := by
  have hIter : crew_is_rate_limit msgIterLimit = true := by decide
  refine ⟨?_, ?_, by decide, by decide, by decide, by decide, hIter, ?_⟩
  · intro m h
    simp only [crew_is_rate_limit, Bool.or_eq_true]
    tauto
  · intro m h
    simp only [crew_is_rate_limit, Bool.or_eq_true]
    tauto
  · norm_num [crew_run, crew_fuel, crew_run_loop, gIter, hIter, get_adaptive_delay,
      REQUEST_DELAY_default, MAX_QUOTA_RETRIES, EXPONENTIAL_BACKOFF_BASE,
      MAX_BACKOFF_TIME, min_def]

/-- C10 witness: a mixed-case message containing `'Iteration Limit'` is
classified as a rate-limit error by the crew-level classifier. -/
theorem c10_witness :
    crew_is_rate_limit (("CrewAI: Iteration LIMIT exceeded").toList) = true :=
  c10_crew_widens_rate_limit_classification.1
    (("CrewAI: Iteration LIMIT exceeded").toList) (by decide)

@[simp] theorem callsOf_ite_sleep (c : Prop) [Decidable c] (q : ℚ) :
    callsOf (if c then [Ev.sleep q] else []) = 0 := by
  split <;> simp

theorem generate_loop_exhausts (f : ℕ → Except (List Char) α) (N : ℕ) (RD : ℚ) :
    ∀ fuel a, a + fuel = N → 0 < fuel →
      (∀ k, a ≤ k → k < N → transient_fail f k) →
      ∃ mLast tr, f (N - 1) = .error mLast ∧
        resilient_generate_loop f N RD a fuel =
          ⟨.exhaustedErr (exhaustedMessage N) mLast, tr⟩ ∧
        callsOf tr = fuel := by
  intro fuel
  induction fuel with
  | zero => intro a _ h0 _; omega
  | succ s ih =>
    intro a hsum _ hf
    obtain ⟨m, hm, hcl⟩ := hf a (le_refl a) (by omega)
    by_cases hlast : a < N - 1
    · have hs : 0 < s := by omega
      obtain ⟨mL, tr, hfL, hloop, hcalls⟩ := ih (a + 1) (by omega) hs
        (fun j hj1 hj2 => hf j (by omega) hj2)
      refine ⟨mL, (if 0 < a then [Ev.sleep RD] else []) ++
        [Ev.call a, Ev.sleep (60 + (a : ℚ) * 30)] ++ tr, hfL, ?_, ?_⟩
      · simp [resilient_generate_loop, hm, hcl, hlast, hloop]
      · simp [hcalls] <;> omega
    · have haN : a = N - 1 := by omega
      refine ⟨m, (if 0 < a then [Ev.sleep RD] else []) ++ [Ev.call a],
        haN ▸ hm, ?_, by simp <;> omega⟩
      simp [resilient_generate_loop, hm, hcl, hlast]

/-- C1: a policy with `maxAttempts = N` (N at least 1) run against a
callable whose every attempt fails with a rate-limit classification
invokes the callable exactly `N` times (never an `N+1`-st time) and
raises the exhaustion error, whose message states `N` attempts and
which carries the last underlying error as exception context. -/
theorem c1_transient_failures_exhaust_budget (N : ℕ) (RD : ℚ)
    (f : ℕ → Except (List Char) α) (hN : 1 ≤ N)
    (hf : ∀ k, k < N → transient_fail f k) :
    ∃ mLast tr, f (N - 1) = .error mLast ∧
      resilient_generate f N RD =
        ⟨.exhaustedErr (exhaustedMessage N) mLast, tr⟩ ∧
      callsOf tr = N := by
  obtain ⟨mL, tr, h1, h2, h3⟩ :=
    generate_loop_exhausts f N RD N 0 (by omega) (by omega)
      (fun j _ hj => hf j hj)
  exact ⟨mL, tr, h1, h2, h3⟩

/-- C1 witness: at `N = 3` with the constant transiently failing
callable `fAlways429`, the controller makes exactly 3 calls and raises
the exhaustion error carrying the underlying message. -/
theorem c1_witness :
    ∃ mLast tr, fAlways429 (3 - 1) = .error mLast ∧
      resilient_generate fAlways429 3 REQUEST_DELAY_default =
        ⟨.exhaustedErr (exhaustedMessage 3) mLast, tr⟩ ∧
      callsOf tr = 3 :=
  c1_transient_failures_exhaust_budget 3 REQUEST_DELAY_default fAlways429
    (by norm_num) (fun k _ => ⟨msg429boom, rfl, by decide⟩)

/-- C2 (amended): at the agent level a callable whose first failure is
not classified as a rate-limit error is invoked exactly once and its
error is re-raised immediately, with no sleep at all, whatever the
attempt budget.  At the crew level this is not true: `crew_run` retries
non-rate-limit errors up to three times with waits `10 * 2 ** k` before
re-raising the original error (see the counterexample). -/
theorem c2_amended_fatal_propagates_immediately_agent (N : ℕ) (RD : ℚ)
    (f : ℕ → Except (List Char) α) (m : List Char) (hN : 1 ≤ N)
    (hm : f 0 = .error m) (hcl : agent_is_rate_limit m = false) :
    resilient_generate f N RD = ⟨.fatalErr m, [.call 0]⟩ := by
  obtain ⟨n, rfl⟩ : ∃ n, N = n + 1 := ⟨N - 1, by omega⟩
  simp [resilient_generate, resilient_generate_loop, hm, hcl]

/-- C2 witness: the fatal callable `fFatal` at the code's actual budget
`MAX_QUOTA_RETRIES = 10` is called once and its error re-raised with no
wait. -/
theorem c2_witness :
    resilient_generate fFatal MAX_QUOTA_RETRIES REQUEST_DELAY_default =
      ⟨.fatalErr msgInvalidKey, [.call 0]⟩ :=
  c2_amended_fatal_propagates_immediately_agent MAX_QUOTA_RETRIES
    REQUEST_DELAY_default fFatal msgInvalidKey (by decide) rfl (by decide)

/-- C2 counterexample: the crew-level controller invokes a callable
that always fails with the non-rate-limit message `'invalid api key'`
four times, sleeping between the attempts (pre-call throttles 3, 6, 12,
24 seconds and error backoffs 20, 40, 80 seconds), before re-raising
the original error — refuting the claim that a fatally failing callable
is invoked exactly once with no wait and immediate propagation. -/
theorem c2_counterexample :
    crew_is_rate_limit msgInvalidKey = false ∧
    (crew_run fFatal REQUEST_DELAY_default 0).outcome = .raised msgInvalidKey ∧
    callsOf (crew_run fFatal REQUEST_DELAY_default 0).trace = 4 ∧
    waitsOf (crew_run fFatal REQUEST_DELAY_default 0).trace =
      [3, 20, 6, 40, 12, 80, 24] := by
  have hcl : crew_is_rate_limit msgInvalidKey = false := by decide
  refine ⟨hcl, ?_, ?_, ?_⟩ <;>
    norm_num [crew_run, crew_fuel, crew_run_loop, fFatal, hcl, get_adaptive_delay,
      REQUEST_DELAY_default, MAX_QUOTA_RETRIES, EXPONENTIAL_BACKOFF_BASE,
      MAX_BACKOFF_TIME, min_def]

theorem generate_loop_success (f : ℕ → Except (List Char) α) (N : ℕ) (RD : ℚ)
    (v : α) :
    ∀ t a, a + t < N → (∀ j, a ≤ j → j < a + t → transient_fail f j) →
      f (a + t) = .ok v →
      ∃ tr, resilient_generate_loop f N RD a (N - a) = ⟨.ok v, tr⟩ ∧
        callsOf tr = t + 1 ∧ ∃ pre, tr = pre ++ [.call (a + t)] := by
  intro t
  induction t with
  | zero =>
    intro a hlt _ hok
    obtain ⟨s, hs⟩ : ∃ s, N - a = s + 1 := ⟨N - a - 1, by omega⟩
    rw [hs]
    simp only [Nat.add_zero] at hok
    refine ⟨(if 0 < a then [Ev.sleep RD] else []) ++ [Ev.call a], ?_, by simp,
      ⟨_, rfl⟩⟩
    simp [resilient_generate_loop, hok]
  | succ s ih =>
    intro a hlt hf hok
    obtain ⟨m, hm, hcl⟩ := hf a (le_refl a) (by omega)
    have hshift : a + 1 + s = a + (s + 1) := by omega
    obtain ⟨tr, hloop, hcalls, pre0, hpre⟩ :=
      ih (a + 1) (by omega) (fun j h1 h2 => hf j (by omega) (by omega))
        (by rw [hshift]; exact hok)
    have hlast : a < N - 1 := by omega
    have hfuel : N - a = (N - (a + 1)) + 1 := by omega
    rw [hshift] at hpre
    refine ⟨(if 0 < a then [Ev.sleep RD] else []) ++
      [Ev.call a, Ev.sleep (60 + (a : ℚ) * 30)] ++ tr, ?_, ?_, ?_⟩
    · rw [hfuel]
      simp [resilient_generate_loop, hm, hcl, hlast, hloop]
    · simp [hcalls] <;> omega
    · refine ⟨(if 0 < a then [Ev.sleep RD] else []) ++
        [Ev.call a, Ev.sleep (60 + (a : ℚ) * 30)] ++ pre0, ?_⟩
      rw [hpre]
      simp [List.append_assoc]

/-- C3: a callable that fails transiently on its first `k - 1` attempts
and succeeds on attempt `k` (`1 ≤ k ≤ N`) is invoked exactly `k` times,
the controller returns the success value, and the trace ends with the
`k`-th invocation — no sleep happens after the final, successful
attempt. -/
theorem c3_success_on_attempt_k (N k : ℕ) (RD : ℚ)
    (f : ℕ → Except (List Char) α) (v : α) (hk1 : 1 ≤ k) (hkN : k ≤ N)
    (hf : ∀ j, j < k - 1 → transient_fail f j) (hok : f (k - 1) = .ok v) :
    ∃ tr, resilient_generate f N RD = ⟨.ok v, tr⟩ ∧ callsOf tr = k ∧
      ∃ pre, tr = pre ++ [.call (k - 1)] := by
  obtain ⟨tr, hloop, hcalls, pre, hpre⟩ :=
    generate_loop_success f N RD v (k - 1) 0 (by omega)
      (fun j h1 h2 => hf j (by omega)) (by simpa using hok)
  refine ⟨tr, ?_, by omega, pre, by simpa using hpre⟩
  simpa [resilient_generate] using hloop

/-- C3 witness: the callable `fTwice429` fails transiently twice and
succeeds on attempt 3; at the code's budget of 10 the controller makes
exactly 3 calls, returns 7, and the trace ends with the third call. -/
theorem c3_witness :
    ∃ tr, resilient_generate fTwice429 MAX_QUOTA_RETRIES REQUEST_DELAY_default =
      ⟨.ok 7, tr⟩ ∧ callsOf tr = 3 ∧ ∃ pre, tr = pre ++ [.call (3 - 1)] :=
  c3_success_on_attempt_k MAX_QUOTA_RETRIES 3 REQUEST_DELAY_default fTwice429 7
    (by decide) (by decide)
    (fun j hj => ⟨msg429rl, by
      simp only [fTwice429]
      rw [if_pos (show j < 2 by omega)], by decide⟩)
    rfl

theorem generate_loop_surfaces (f : ℕ → Except (List Char) α) (N : ℕ) (RD : ℚ) :
    ∀ fuel a, a + fuel = N →
      (∃ v tr, resilient_generate_loop f N RD a fuel = ⟨.ok v, tr⟩) ∨
      (∃ m j tr, j < N ∧ f j = .error m ∧ agent_is_rate_limit m = false ∧
        resilient_generate_loop f N RD a fuel = ⟨.fatalErr m, tr⟩) ∨
      (∃ mL tr, resilient_generate_loop f N RD a fuel =
        ⟨.exhaustedErr (exhaustedMessage N) mL, tr⟩) ∨
      fuel = 0 := by
  intro fuel
  induction fuel with
  | zero => intro a _; exact Or.inr (Or.inr (Or.inr rfl))
  | succ s ih =>
    intro a hsum
    cases hfa : f a with
    | ok v =>
      exact Or.inl ⟨v, (if 0 < a then [Ev.sleep RD] else []) ++ [Ev.call a],
        by simp [resilient_generate_loop, hfa]⟩
    | error m =>
      cases hcl : agent_is_rate_limit m with
      | false =>
        exact Or.inr (Or.inl ⟨m, a,
          (if 0 < a then [Ev.sleep RD] else []) ++ [Ev.call a], by omega, hfa, hcl,
          by simp [resilient_generate_loop, hfa, hcl]⟩)
      | true =>
        by_cases hlast : a < N - 1
        · rcases ih (a + 1) (by omega) with ⟨v, tr, hloop⟩ |
            ⟨m2, j, tr, hj, hfj, hclj, hloop⟩ | ⟨mL, tr, hloop⟩ | hzero
          · exact Or.inl ⟨v, (if 0 < a then [Ev.sleep RD] else []) ++
              [Ev.call a, Ev.sleep (60 + (a : ℚ) * 30)] ++ tr,
              by simp [resilient_generate_loop, hfa, hcl, hlast, hloop]⟩
          · exact Or.inr (Or.inl ⟨m2, j, (if 0 < a then [Ev.sleep RD] else []) ++
              [Ev.call a, Ev.sleep (60 + (a : ℚ) * 30)] ++ tr, hj, hfj, hclj,
              by simp [resilient_generate_loop, hfa, hcl, hlast, hloop]⟩)
          · exact Or.inr (Or.inr (Or.inl ⟨mL, (if 0 < a then [Ev.sleep RD] else []) ++
              [Ev.call a, Ev.sleep (60 + (a : ℚ) * 30)] ++ tr,
              by simp [resilient_generate_loop, hfa, hcl, hlast, hloop]⟩))
          · omega
        · exact Or.inr (Or.inr (Or.inl ⟨m,
            (if 0 < a then [Ev.sleep RD] else []) ++ [Ev.call a],
            by simp [resilient_generate_loop, hfa, hcl, hlast]⟩))

theorem crew_loop_surfaces (g : ℕ → Except (List Char) α) (RD : ℚ) :
    ∀ fuel k qrc c,
      (MAX_QUOTA_RETRIES - qrc) + (4 - c) < fuel →
      qrc + 1 ≤ MAX_QUOTA_RETRIES →
      (∃ v tr, crew_run_loop g RD k qrc c fuel = ⟨.ok v, 0, tr⟩) ∨
      (∃ c2 tr, crew_run_loop g RD k qrc c fuel =
        ⟨.response (("rate_limit_exceeded").toList), c2, tr⟩) ∨
      (∃ m j c2 tr, g j = .error m ∧ crew_is_rate_limit m = false ∧
        crew_run_loop g RD k qrc c fuel = ⟨.raised m, c2, tr⟩) := by
  have hM : MAX_QUOTA_RETRIES = 10 := rfl
  intro fuel
  induction fuel with
  | zero => intro k qrc c hmeas _; omega
  | succ s ih =>
    intro k qrc c hmeas hqrc
    have hcond : qrc < MAX_QUOTA_RETRIES := by omega
    cases hgk : g k with
    | ok v =>
      refine Or.inl ⟨v, [.sleep (if RD < get_adaptive_delay RD c
        then get_adaptive_delay RD c else RD), .call k], ?_⟩
      simp [crew_run_loop, hcond, hgk]
    | error m =>
      cases hcl : crew_is_rate_limit m with
      | true =>
        by_cases hb : qrc < MAX_QUOTA_RETRIES - 1
        · rcases ih (k + 1) (qrc + 1) (c + 1) (by rw [hM] at *; omega)
            (by rw [hM] at *; omega) with ⟨v, tr, hloop⟩ |
            ⟨c2, tr, hloop⟩ | ⟨m2, j, c2, tr, h1, h2, hloop⟩
          · exact Or.inl ⟨v, _, by
              simp [crew_run_loop, hcond, hgk, hcl, hb, hloop]
              rfl⟩
          · exact Or.inr (Or.inl ⟨c2, _, by
              simp [crew_run_loop, hcond, hgk, hcl, hb, hloop]
              rfl⟩)
          · exact Or.inr (Or.inr ⟨m2, j, c2, _, h1, h2, by
              simp [crew_run_loop, hcond, hgk, hcl, hb, hloop]
              rfl⟩)
        · exact Or.inr (Or.inl ⟨c, _, by
            simp [crew_run_loop, hcond, hgk, hcl, hb]
            rfl⟩)
      | false =>
        by_cases hb : c < 3
        · rcases ih (k + 1) qrc (c + 1) (by rw [hM] at *; omega) hqrc with
            ⟨v, tr, hloop⟩ | ⟨c2, tr, hloop⟩ | ⟨m2, j, c2, tr, h1, h2, hloop⟩
          · exact Or.inl ⟨v, _, by
              simp [crew_run_loop, hcond, hgk, hcl, hb, hloop]
              rfl⟩
          · exact Or.inr (Or.inl ⟨c2, _, by
              simp [crew_run_loop, hcond, hgk, hcl, hb, hloop]
              rfl⟩)
          · exact Or.inr (Or.inr ⟨m2, j, c2, _, h1, h2, by
              simp [crew_run_loop, hcond, hgk, hcl, hb, hloop]
              rfl⟩)
        · exact Or.inr (Or.inr ⟨m, k, c, _, hgk, hcl, by
            simp [crew_run_loop, hcond, hgk, hcl, hb]
            rfl⟩)

/-- C4: the only errors either controller surfaces are the exhaustion
outcome or an original error that the relevant classifier marks as
non-rate-limit (fatal); a rate-limit-classified error from an attempt
that is followed by another attempt never reaches the caller.  At the
agent level the surfaced outcomes are success, a non-rate-limit
original error, or the exhaustion exception; at the crew level they are
success, the rate-limit error response, or an original non-rate-limit
error. -/
theorem c4_only_exhaustion_or_fatal_surface (N : ℕ) (RD : ℚ)
    (f g : ℕ → Except (List Char) α) (c0 : ℕ) (hN : 1 ≤ N) :
    ((∃ v tr, resilient_generate f N RD = ⟨.ok v, tr⟩) ∨
     (∃ m j tr, j < N ∧ f j = .error m ∧ agent_is_rate_limit m = false ∧
       resilient_generate f N RD = ⟨.fatalErr m, tr⟩) ∨
     (∃ mL tr, resilient_generate f N RD =
       ⟨.exhaustedErr (exhaustedMessage N) mL, tr⟩)) ∧
    ((∃ v tr, crew_run g RD c0 = ⟨.ok v, 0, tr⟩) ∨
     (∃ c2 tr, crew_run g RD c0 =
       ⟨.response (("rate_limit_exceeded").toList), c2, tr⟩) ∨
     (∃ m j c2 tr, g j = .error m ∧ crew_is_rate_limit m = false ∧
       crew_run g RD c0 = ⟨.raised m, c2, tr⟩)) := by
  constructor
  · rcases generate_loop_surfaces f N RD N 0 (by omega) with h | h | h | h
    · exact Or.inl h
    · exact Or.inr (Or.inl h)
    · exact Or.inr (Or.inr h)
    · omega
  · have hM : MAX_QUOTA_RETRIES = 10 := rfl
    exact crew_loop_surfaces g RD crew_fuel 0 0 c0 (by rw [hM]; simp [crew_fuel]; omega)
      (by omega)

/-- C4 witness: at `N = 1` with immediately succeeding callables on
both levels, the surfaced outcome is the success value. -/
theorem c4_witness :
    ((∃ v tr, resilient_generate gOk 1 REQUEST_DELAY_default = ⟨.ok v, tr⟩) ∨
     (∃ m j tr, j < 1 ∧ gOk j = .error m ∧ agent_is_rate_limit m = false ∧
       resilient_generate gOk 1 REQUEST_DELAY_default = ⟨.fatalErr m, tr⟩) ∨
     (∃ mL tr, resilient_generate gOk 1 REQUEST_DELAY_default =
       ⟨.exhaustedErr (exhaustedMessage 1) mL, tr⟩)) ∧
    ((∃ v tr, crew_run gOk REQUEST_DELAY_default 0 = ⟨.ok v, 0, tr⟩) ∨
     (∃ c2 tr, crew_run gOk REQUEST_DELAY_default 0 =
       ⟨.response (("rate_limit_exceeded").toList), c2, tr⟩) ∨
     (∃ m j c2 tr, gOk j = .error m ∧ crew_is_rate_limit m = false ∧
       crew_run gOk REQUEST_DELAY_default 0 = ⟨.raised m, c2, tr⟩)) :=
  c4_only_exhaustion_or_fatal_surface 1 REQUEST_DELAY_default gOk gOk 0
    (by decide)

theorem crew_loop_ok_resets (g : ℕ → Except (List Char) α) (RD : ℚ) :
    ∀ fuel k qrc c v,
      (crew_run_loop g RD k qrc c fuel).outcome = .ok v →
      (crew_run_loop g RD k qrc c fuel).finalErrors = 0 := by
  intro fuel
  induction fuel with
  | zero => intro k qrc c v h; simp [crew_run_loop] at h
  | succ s ih =>
    intro k qrc c v h
    by_cases hcond : qrc < MAX_QUOTA_RETRIES
    · cases hgk : g k with
      | ok w => simp [crew_run_loop, hcond, hgk]
      | error m =>
        cases hcl : crew_is_rate_limit m with
        | true =>
          by_cases hb : qrc < MAX_QUOTA_RETRIES - 1
          · simp only [crew_run_loop, hcond, if_true, hgk, hcl, hb] at h ⊢
            exact ih _ _ _ v h
          · simp [crew_run_loop, hcond, hgk, hcl, hb] at h
        | false =>
          by_cases hb : c < 3
          · simp only [crew_run_loop, hcond, if_true, hgk, hcl, hb] at h ⊢
            exact ih _ _ _ v h
          · simp [crew_run_loop, hcond, hgk, hcl, hb] at h
    · simp [crew_run_loop, hcond] at h

/-- C9: whenever `GameBuilderCrew.run` returns a success value, the
instance counter `consecutive_errors` is 0 afterwards, whatever its
initial value and however many failures preceded the success. -/
theorem c9_success_resets_counter (g : ℕ → Except (List Char) α) (RD : ℚ)
    (c0 : ℕ) (v : α) (h : (crew_run g RD c0).outcome = .ok v) :
    (crew_run g RD c0).finalErrors = 0 :=
  crew_loop_ok_resets g RD crew_fuel 0 0 c0 v h

/-- C9 witness: a run started with five accumulated consecutive errors
that succeeds immediately ends with the counter reset to 0. -/
theorem c9_witness :
    (crew_run gOk REQUEST_DELAY_default 5).finalErrors = 0 :=
  c9_success_resets_counter gOk REQUEST_DELAY_default 5 5 (by
    norm_num [crew_run, crew_fuel, crew_run_loop, gOk, get_adaptive_delay,
      REQUEST_DELAY_default, MAX_QUOTA_RETRIES, EXPONENTIAL_BACKOFF_BASE,
      MAX_BACKOFF_TIME, min_def])

/-- C7 counterexample: in the spec's concrete scenario (fail twice with
message `'429 rate limit'`, then succeed) the crew-level controller's
sleeps are `[3, 60, 6, 90, 12]`, not exactly `[60, 90]`: besides the
retry waits of 60 and 90 seconds it also sleeps the pre-attempt
throttle delays 3, 6 and 12 seconds before the three attempts. -/
theorem c7_counterexample :
    waitsOf (crew_run fTwice429 REQUEST_DELAY_default 0).trace =
      [3, 60, 6, 90, 12] ∧
    waitsOf (crew_run fTwice429 REQUEST_DELAY_default 0).trace ≠
      [60, 90] := by
  have hcl : crew_is_rate_limit msg429rl = true := by decide
  constructor
  · norm_num [crew_run, crew_fuel, crew_run_loop, fTwice429, hcl,
      get_adaptive_delay, REQUEST_DELAY_default, MAX_QUOTA_RETRIES,
      EXPONENTIAL_BACKOFF_BASE, MAX_BACKOFF_TIME, min_def]
  · norm_num [crew_run, crew_fuel, crew_run_loop, fTwice429, hcl,
      get_adaptive_delay, REQUEST_DELAY_default, MAX_QUOTA_RETRIES,
      EXPONENTIAL_BACKOFF_BASE, MAX_BACKOFF_TIME, min_def]

/-- C7 (amended): in the concrete scenario the crew-level controller
invokes the callable exactly 3 times, returns the success value, ends
with `consecutive_errors = 0`, and its full event trace is
`[sleep 3, call 0, sleep 60, sleep 6, call 1, sleep 90, sleep 12,
call 2]` — the retry waits 60 and 90 seconds of the claim plus the
pre-attempt throttle delays 3, 6 and 12 seconds, and no sleep after the
final successful attempt. -/
theorem c7_amended_concrete_scenario :
    crew_run fTwice429 REQUEST_DELAY_default 0 =
      ⟨.ok 7, 0, [.sleep 3, .call 0, .sleep 60, .sleep 6, .call 1, .sleep 90,
        .sleep 12, .call 2]⟩ ∧
    callsOf (crew_run fTwice429 REQUEST_DELAY_default 0).trace = 3 := by
  have hcl : crew_is_rate_limit msg429rl = true := by decide
  constructor <;>
    norm_num [crew_run, crew_fuel, crew_run_loop, fTwice429, hcl,
      get_adaptive_delay, REQUEST_DELAY_default, MAX_QUOTA_RETRIES,
      EXPONENTIAL_BACKOFF_BASE, MAX_BACKOFF_TIME, min_def]

/-- C8 counterexample: within one logical crew-level call the adaptive
delay is slept again before the retry attempt — after the first failure
the trace contains the adaptive delay `get_adaptive_delay 3 1 = 6`
between `call 0` and `call 1`, refuting the claim that the adaptive
delay is applied only before the first attempt and never as a
between-retry wait. -/
theorem c8_counterexample :
    crew_run gOnce429 REQUEST_DELAY_default 0 =
      ⟨.ok 1, 0, [.sleep 3, .call 0, .sleep 60, .sleep 6, .call 1]⟩ ∧
    get_adaptive_delay REQUEST_DELAY_default 1 = 6 := by
  have hcl : crew_is_rate_limit msg429rl = true := by decide
  constructor <;>
    norm_num [crew_run, crew_fuel, crew_run_loop, gOnce429, hcl,
      get_adaptive_delay, REQUEST_DELAY_default, MAX_QUOTA_RETRIES,
      EXPONENTIAL_BACKOFF_BASE, MAX_BACKOFF_TIME, min_def]

/-- C8 (amended): with the default `REQUEST_DELAY = 3`, the adaptive
pre-call delay equals `min(3 * 2 ** min(consecutiveFailureCount, 5),
300)` for every failure count (the code returns `REQUEST_DELAY`
uncapped at count 0, which coincides with the formula because 3 is
below the cap), it never exceeds `MAX_BACKOFF_TIME = 300`, and the
exponent is capped at 5; but it is slept before every attempt of a
logical crew-level call, including retry attempts (see the
counterexample trace). -/
theorem c8_amended_adaptive_delay_formula (cfc : ℕ) :
    get_adaptive_delay REQUEST_DELAY_default cfc =
      min (REQUEST_DELAY_default * EXPONENTIAL_BACKOFF_BASE ^ (min cfc 5))
        MAX_BACKOFF_TIME ∧
    get_adaptive_delay REQUEST_DELAY_default cfc ≤ MAX_BACKOFF_TIME ∧
    (5 ≤ cfc → get_adaptive_delay REQUEST_DELAY_default cfc =
      get_adaptive_delay REQUEST_DELAY_default 5) := by
  refine ⟨?_, ?_, ?_⟩
  · cases cfc with
    | zero => norm_num [get_adaptive_delay, REQUEST_DELAY_default,
        EXPONENTIAL_BACKOFF_BASE, MAX_BACKOFF_TIME]
    | succ n => simp [get_adaptive_delay]
  · cases cfc with
    | zero => norm_num [get_adaptive_delay, REQUEST_DELAY_default,
        MAX_BACKOFF_TIME]
    | succ n => simp [get_adaptive_delay]
  · intro h5
    have hmin : min cfc 5 = 5 := by omega
    have h0 : cfc ≠ 0 := by omega
    simp [get_adaptive_delay, h0, hmin]

/-- C8 witness: the exponent cap and the formula at a concrete failure
count beyond the cap. -/
theorem c8_witness :
    get_adaptive_delay REQUEST_DELAY_default 7 =
      get_adaptive_delay REQUEST_DELAY_default 5 ∧
    get_adaptive_delay REQUEST_DELAY_default 7 =
      min (REQUEST_DELAY_default * EXPONENTIAL_BACKOFF_BASE ^ (min 7 5))
        MAX_BACKOFF_TIME :=
  ⟨(c8_amended_adaptive_delay_formula 7).2.2 (by norm_num),
   (c8_amended_adaptive_delay_formula 7).1⟩

theorem quota_backoff_wait_mono (base b cap : ℚ) (hbase : 0 ≤ base)
    (hb : 1 ≤ b) {i j : ℕ} (hij : i ≤ j) :
    quota_backoff_wait base b cap i ≤ quota_backoff_wait base b cap j := by
  unfold quota_backoff_wait
  exact min_le_min
    (mul_le_mul_of_nonneg_left
      (min_le_min (pow_le_pow_right₀ hb hij) le_rfl) hbase) le_rfl

theorem quota_backoff_wait_le_cap (base b cap : ℚ) (r : ℕ) :
    quota_backoff_wait base b cap r ≤ cap :=
  min_le_right _ _

theorem quota_backoff_wait_eq_spec_formula (base b cap : ℚ) (hbase : 0 < base)
    (r : ℕ) : quota_backoff_wait base b cap r = min (base * b ^ r) cap := by
  unfold quota_backoff_wait
  rw [mul_min_of_nonneg _ _ hbase.le, mul_div_cancel₀ cap hbase.ne.symm,
    min_assoc, min_self]

/-- C5: for any policy constants `baseWaitSeconds > 0`,
`backoffBase > 1` and cap, the exponential-mode wait of
`handle_quota_exceeded` is monotonically non-decreasing in the attempt
index and never exceeds the cap, and it coincides with the
specification's formula `min(base * b ** i, cap)`; in particular the
concrete quota-restoration schedule of `config.py` (base 65, factor 2,
cap 300) is monotone and capped at `MAX_BACKOFF_TIME = 300`. -/
theorem c5_exponential_wait_monotone_and_capped (base b cap : ℚ) (i j : ℕ)
    (hbase : 0 < base) (hb : 1 < b) (hij : i ≤ j) :
    quota_backoff_wait base b cap i ≤ quota_backoff_wait base b cap j ∧
    quota_backoff_wait base b cap i ≤ cap ∧
    quota_backoff_wait base b cap i = min (base * b ^ i) cap ∧
    quota_wait_time i ≤ quota_wait_time j ∧
    quota_wait_time i ≤ MAX_BACKOFF_TIME := by
  refine ⟨quota_backoff_wait_mono base b cap hbase.le hb.le hij,
    quota_backoff_wait_le_cap base b cap i,
    quota_backoff_wait_eq_spec_formula base b cap hbase i, ?_, ?_⟩
  · exact quota_backoff_wait_mono QUOTA_WAIT_TIME EXPONENTIAL_BACKOFF_BASE
      MAX_BACKOFF_TIME (by norm_num [QUOTA_WAIT_TIME])
      (by norm_num [EXPONENTIAL_BACKOFF_BASE]) hij
  · exact quota_backoff_wait_le_cap _ _ _ _

/-- C5 witness: at the concrete schedule, the waits for attempt indices
1 and 2 are 130 and 260 seconds, ordered and below the 300-second
cap. -/
theorem c5_witness :
    quota_wait_time 1 ≤ quota_wait_time 2 ∧
    quota_wait_time 1 ≤ MAX_BACKOFF_TIME ∧
    quota_wait_time 1 = 130 ∧ quota_wait_time 2 = 260 := by
  refine ⟨(c5_exponential_wait_monotone_and_capped 65 2 300 1 2 (by norm_num)
      (by norm_num) (by norm_num)).2.2.2.1,
    (c5_exponential_wait_monotone_and_capped 65 2 300 1 2 (by norm_num)
      (by norm_num) (by norm_num)).2.2.2.2, ?_, ?_⟩ <;>
    norm_num [quota_wait_time, quota_backoff_wait, QUOTA_WAIT_TIME,
      EXPONENTIAL_BACKOFF_BASE, MAX_BACKOFF_TIME, min_def]

/-- C6 witness: a message containing the configured indicator
`'quota exceeded'` is accepted by `is_quota_error`, via the amended
characterisation. -/
theorem c6_witness :
    is_quota_error (("API Quota exceeded for today").toList) = true :=
  (c6_amended_classifier_characterisation
    (("API Quota exceeded for today").toList)).1.mpr
    (Or.inr (Or.inr (Or.inl (by decide))))
